import Mathlib

/-!
Verification of the landing-gear control system core (src/main.py and
src/config_loader.py) against its natural-language specification.

Times (`deploy_time_s`, `retract_time_s`, `timer_s`, `dt_s`) are Python
floats in the source; they are embedded as exact rationals (ℚ), so the
arithmetic `timer_s += dt_s` and the comparisons `timer_s >= deploy_time_s`
are modelled exactly.  Methods that mutate `self` are embedded as functions
returning the updated `GearLeg` (paired with the Python return value where
there is one); `logger.info` calls are embedded as structured events
collected in a list.  Python's `float()` conversions in the configuration
loader are modelled by `FloatConv`, which distinguishes finite results,
the caught `TypeError`/`ValueError`, the uncaught `OverflowError`, and
conversions whose successful result lies outside the rational model
(non-finite floats, strings beyond the modelled ASCII subset).
-/

/-- The four states of a landing gear leg (`GearState` enum in src/main.py). -/
inductive GearState where
  | UP_LOCKED
  | TRANSITIONING_DOWN
  | DOWN_LOCKED
  | TRANSITIONING_UP
deriving DecidableEq, Repr

/-- Python's `Enum.name`: the member's declared name as a string. -/
def GearState.name : GearState → String
  | .UP_LOCKED => "UP_LOCKED"
  | .TRANSITIONING_DOWN => "TRANSITIONING_DOWN"
  | .DOWN_LOCKED => "DOWN_LOCKED"
  | .TRANSITIONING_UP => "TRANSITIONING_UP"

/-- The `GearLeg` dataclass of src/main.py: name, configured durations,
current state (default `UP_LOCKED`) and elapsed transition timer
(default `0.0`). -/
structure GearLeg where
  name : String
  deploy_time_s : ℚ
  retract_time_s : ℚ
  state : GearState := .UP_LOCKED
  timer_s : ℚ := 0
deriving DecidableEq, Repr

/-- `GearLeg.uplock_sensor`: true iff the leg is locked up. -/
def GearLeg.uplock_sensor (leg : GearLeg) : Bool :=
  leg.state = GearState.UP_LOCKED

/-- `GearLeg.downlock_sensor`: true iff the leg is locked down. -/
def GearLeg.downlock_sensor (leg : GearLeg) : Bool :=
  leg.state = GearState.DOWN_LOCKED

/-- `GearLeg.in_transit_sensor`: true iff the leg is in either
transitioning state (`self.state in (TRANSITIONING_DOWN, TRANSITIONING_UP)`). -/
def GearLeg.in_transit_sensor (leg : GearLeg) : Bool :=
  leg.state = GearState.TRANSITIONING_DOWN ∨ leg.state = GearState.TRANSITIONING_UP

/-- `GearLeg.command(direction, allow_from)` of src/main.py, returning the
Python boolean result together with the updated leg.  The guard is
`if self.state.name not in allow_from: return False`; then `"DOWN"` starts
`TRANSITIONING_DOWN` with the timer reset, `"UP"` starts `TRANSITIONING_UP`
with the timer reset, and any other direction falls through to `return False`
with no mutation. -/
def GearLeg.command (leg : GearLeg) (direction : String) (allow_from : List String) :
    Bool × GearLeg :=
  if leg.state.name ∈ allow_from then
    if direction = "DOWN" then
      (true, { leg with state := .TRANSITIONING_DOWN, timer_s := 0 })
    else if direction = "UP" then
      (true, { leg with state := .TRANSITIONING_UP, timer_s := 0 })
    else
      (false, leg)
  else
    (false, leg)

/-- `GearLeg.tick(dt_s)` of src/main.py: while transitioning, add `dt_s` to
the timer and, if the timer now reaches the relevant duration, complete the
transition to the locked state in the same call; in a locked state it does
nothing. -/
def GearLeg.tick (leg : GearLeg) (dt_s : ℚ) : GearLeg :=
  if leg.state = GearState.TRANSITIONING_DOWN then
    if leg.timer_s + dt_s ≥ leg.deploy_time_s then
      { leg with timer_s := leg.timer_s + dt_s, state := .DOWN_LOCKED }
    else
      { leg with timer_s := leg.timer_s + dt_s }
  else if leg.state = GearState.TRANSITIONING_UP then
    if leg.timer_s + dt_s ≥ leg.retract_time_s then
      { leg with timer_s := leg.timer_s + dt_s, state := .UP_LOCKED }
    else
      { leg with timer_s := leg.timer_s + dt_s }
  else
    leg

/-- A JSON value, as produced by Python's `json.load` in
src/config_loader.py.  A JSON number written without fraction or exponent
decodes to a Python `int` (arbitrary precision, `int`); any other number
decodes to a Python float, carried here as its exact rational value (`num`;
a literal so large that decoding already yields a non-finite float is
outside this rational model). -/
inductive Json where
  | null
  | bool (b : Bool)
  | int (n : ℤ)
  | num (q : ℚ)
  | str (s : String)
  | arr (items : List Json)
  | obj (fields : List (String × Json))

/-- Numeric value of a list of decimal digit characters. -/
def digitsVal (cs : List Char) : ℕ :=
  cs.foldl (fun a c => 10 * a + (c.toNat - Char.toNat '0')) 0

/-- The outcome of Python's `float(x)` as seen by src/config_loader.py:
`ok q` — the call returns the finite value `q` (carried exactly; IEEE-754
rounding of in-range values is the disclosed rational-model boundary);
`caught` — the call raises `TypeError` or `ValueError`, which
`load_config`'s `except (TypeError, ValueError)` catches (fallback to the
default); `overflow` — the call raises `OverflowError` (an `int` beyond the
float range), which `load_config` does NOT catch, so it propagates;
`untracked` — the call does not raise an uncaught error, but its outcome
is not tracked by this rational model: a non-finite result (`inf`/`nan`
literals, a decimal string rounding past the float range) or a string
outside the modelled ASCII subset (Python additionally accepts Unicode
digits and Unicode whitespace). -/
inductive FloatConv where
  | ok (q : ℚ)
  | caught
  | untracked
  | overflow
deriving DecidableEq, Repr

/-- The smallest magnitude that rounds to infinity in IEEE-754 double
precision, `2 ^ 1024 - 2 ^ 970` (the midpoint above the largest finite
double rounds up, to the even mantissa): Python's float overflow
threshold. -/
def floatMaxBound : ℚ := 2 ^ 1024 - 2 ^ 970

/-- `floatMaxBound` as a natural number, for `float(int)`: `float()` on an
`int` of at least this magnitude raises `OverflowError`. -/
def intOverflowBound : ℕ := 2 ^ 1024 - 2 ^ 970

/-- Sentinel stored by the `load_config` model where the program stores a
float value this rational model does not track (`FloatConv.untracked`).
The program succeeds there just as the model does; only the stored number
is unmodelled, and no theorem below inspects it. -/
def untrackedFloat : ℚ := 2 ^ 1024

/-- Whitespace stripped by Python's `float(str)` within the modelled ASCII
subset: tab through carriage return (9-13) and space (32). -/
def pyWhitespace (c : Char) : Bool :=
  (9 ≤ c.toNat && c.toNat ≤ 13) || c.toNat = 32

/-- Characters whose effect on `float(str)` this model tracks: ASCII
except the file/group/record/unit separators 28-31 (which Python also
treats as whitespace).  Any other character puts the string outside the
modelled subset. -/
def trackedChar (c : Char) : Bool :=
  c.toNat < 128 && !(28 ≤ c.toNat && c.toNat ≤ 31)

/-- Strip Python-float whitespace from both ends. -/
def stripPyWs (cs : List Char) : List Char :=
  ((cs.dropWhile pyWhitespace).reverse.dropWhile pyWhitespace).reverse

/-- Validity of the tail of a digit group with underscores: every
underscore sits strictly between two digits, no doubled underscores. -/
def usTail : List Char → Bool
  | [] => true
  | '_' :: c :: r => c.isDigit && usTail r
  | ['_'] => false
  | c :: r => c.isDigit && usTail r

/-- A non-empty digit group with optional single underscores between
digits, as in Python numeric literals accepted by `float()`. -/
def digitsUS (cs : List Char) : Bool :=
  match cs with
  | [] => false
  | c :: r => c.isDigit && usTail r

/-- Parse the unsigned decimal part of a Python float string (after sign
removal): an optional exponent split at the first `e`/`E`, a mantissa
`digits`, `digits.`, `.digits` or `digits.digits`, underscores allowed
inside each digit group.  Returns the exact rational value, or `none` for
`ValueError`. -/
def parseDecimal (cs : List Char) : Option ℚ :=
  let mantExp := cs.span (fun c => !(c == 'e' || c == 'E'))
  let expVal : Option ℤ :=
    match mantExp.2 with
    | [] => some 0
    | _ :: expPart =>
      let signDigits : ℤ × List Char :=
        match expPart with
        | '-' :: r => (-1, r)
        | '+' :: r => (1, r)
        | _ => (1, expPart)
      if digitsUS signDigits.2 then
        some (signDigits.1 * (digitsVal (signDigits.2.filter Char.isDigit) : ℤ))
      else none
  match expVal with
  | none => none
  | some e =>
    match mantExp.1.splitOn '.' with
    | [ip] =>
      if digitsUS ip then some ((digitsVal (ip.filter Char.isDigit) : ℚ) * (10 : ℚ) ^ e)
      else none
    | [ip, fp] =>
      if (ip.isEmpty && fp.isEmpty) || !(ip.isEmpty || digitsUS ip)
          || !(fp.isEmpty || digitsUS fp) then none
      else
        let fpc := fp.filter Char.isDigit
        some (((digitsVal (ip.filter Char.isDigit) : ℚ)
          + (digitsVal fpc : ℚ) / (10 : ℚ) ^ fpc.length) * (10 : ℚ) ^ e)
    | _ => none

/-- Python's `float(s)` on a string: whitespace is stripped, an optional
sign is taken, then `inf`/`infinity`/`nan` (case-insensitive, non-finite
results, hence untracked) or a decimal literal with optional underscores
and exponent.  A decimal value at or past the float range converts to
infinity without an error (unlike `float(int)`), hence untracked; any
other tracked string raises `ValueError` (`caught`); strings containing
characters outside the modelled subset are untracked. -/
def parsePyFloat (s : String) : FloatConv :=
  let cs := s.toList
  if !(cs.all trackedChar) then .untracked
  else
    let signBody : ℚ × List Char :=
      match stripPyWs cs with
      | '-' :: r => (-1, r)
      | '+' :: r => (1, r)
      | body => (1, body)
    let low := signBody.2.map Char.toLower
    if low = "inf".toList || low = "infinity".toList || low = "nan".toList then .untracked
    else
      match parseDecimal signBody.2 with
      | none => .caught
      | some v =>
        if floatMaxBound ≤ |v| then .untracked else .ok (signBody.1 * v)

/-- Python's `float(x)` on a JSON-decoded value: an `int` converts unless
it reaches the float range, where `float()` raises the uncaught
`OverflowError`; a float converts to itself; booleans to 1/0; strings per
`parsePyFloat`; `None`, lists and dicts raise `TypeError` (`caught`). -/
def pyFloat : Json → FloatConv
  | .int n => if intOverflowBound ≤ n.natAbs then .overflow else .ok (n : ℚ)
  | .num q => .ok q
  | .bool b => .ok (if b then 1 else 0)
  | .str s => parsePyFloat s
  | .null => .caught
  | .arr _ => .caught
  | .obj _ => .caught

/-- Python's `dict.get(key)` on a decoded JSON object (first binding wins,
as dict keys are unique after `json.load`). -/
def jsonGet (fields : List (String × Json)) (key : String) : Option Json :=
  (fields.find? (fun p => p.1 = key)).map (fun p => p.2)

/-- The `TimingsConfig` dataclass of src/config_loader.py. -/
structure TimingsConfig where
  deploy_time_s : ℚ := 2.5
  retract_time_s : ℚ := 2.5
deriving DecidableEq, Repr

/-- The `InterlocksConfig` dataclass of src/config_loader.py
(`Optional[List[str]]` fields defaulting to `None`). -/
structure InterlocksConfig where
  allow_down_from : Option (List String) := none
  allow_up_from : Option (List String) := none
deriving DecidableEq, Repr

/-- The `LoggingConfig` dataclass of src/config_loader.py.  The annotation
says `str`, but `load_config` stores whatever JSON value was under
`logging.level`, so the field is kept as a JSON value here. -/
structure LoggingConfig where
  level : Json := .str "INFO"

/-- The `Config` dataclass of src/config_loader.py, with its field
defaults (`InterlocksConfig(["UP_LOCKED"], ["DOWN_LOCKED"])`). -/
structure Config where
  timings : TimingsConfig := {}
  interlocks : InterlocksConfig :=
    { allow_down_from := some ["UP_LOCKED"], allow_up_from := some ["DOWN_LOCKED"] }
  logging : LoggingConfig := {}

/-- One `try: float(timings_raw.get(key, 2.5)) except (TypeError, ValueError)`
block of src/config_loader.py: a missing key gives the default 2.5
(`float(2.5)` is 2.5), a caught conversion error falls back to 2.5, an
`OverflowError` propagates uncaught, and an untracked conversion stores
the disclosed sentinel (the program succeeds there too; see
`untrackedFloat`). -/
def timing_field (o : List (String × Json)) (key : String) : Except String ℚ :=
  match jsonGet o key with
  | none => pure 2.5
  | some v =>
    match pyFloat v with
    | .ok q => pure q
    | .caught => pure 2.5
    | .untracked => pure untrackedFloat
    | .overflow => throw "OverflowError"

/-- `load_config` of src/config_loader.py, applied to the JSON value decoded
from the file.  `.get` on a non-dict raises `AttributeError`, modelled as
`Except.error "AttributeError"`; the scalar conversions behave per
`timing_field` (caught errors fall back, `OverflowError` propagates); the
interlock fields keep any list (`isinstance(x, list)`) and otherwise fall
back.  A kept list is embedded as its string elements: the only consumer
compares state names against its elements (and tests its truthiness after
`allow_from or []`), and for both, dropping non-string elements is
observationally equivalent. -/
def load_config (raw : Json) : Except String Config := do
  let rawObj ← match raw with
    | .obj fs => pure fs
    | _ => throw "AttributeError"
  let timingsVal := (jsonGet rawObj "timings").getD (.obj [])
  let interlocksVal := (jsonGet rawObj "interlocks").getD (.obj [])
  let loggingVal := (jsonGet rawObj "logging").getD (.obj [])
  let timingsObj ← match timingsVal with
    | .obj fs => pure fs
    | _ => throw "AttributeError"
  let deploy_time ← timing_field timingsObj "deploy_time_s"
  let retract_time ← timing_field timingsObj "retract_time_s"
  let interlocksObj ← match interlocksVal with
    | .obj fs => pure fs
    | _ => throw "AttributeError"
  let allow_down_from : List String :=
    match jsonGet interlocksObj "allow_down_from" with
    | none => ["UP_LOCKED"]
    | some (.arr l) => l.filterMap (fun v => match v with | .str s => some s | _ => none)
    | some _ => ["UP_LOCKED"]
  let allow_up_from : List String :=
    match jsonGet interlocksObj "allow_up_from" with
    | none => ["DOWN_LOCKED"]
    | some (.arr l) => l.filterMap (fun v => match v with | .str s => some s | _ => none)
    | some _ => ["DOWN_LOCKED"]
  let loggingObj ← match loggingVal with
    | .obj fs => pure fs
    | _ => throw "AttributeError"
  let log_level := (jsonGet loggingObj "level").getD (.str "INFO")
  pure
    { timings := { deploy_time_s := deploy_time, retract_time_s := retract_time }
      interlocks := { allow_down_from := some allow_down_from, allow_up_from := some allow_up_from }
      logging := { level := log_level } }

/-- The structured content of one `logger.info` line emitted by
`LandingGearController.log_leg`: the f-string interpolates the upper-cased
leg name, the message, the state name and the three sensors. -/
structure LogEvent where
  name : String
  msg : String
  stateName : String
  uplock : Bool
  downlock : Bool
  transit : Bool
deriving DecidableEq, Repr

/-- `LandingGearController.log_leg(leg, msg)`: emits one diagnostic event
with the leg's name (upper-cased by the f-string), the message, the state
name and the sensor triple. -/
def log_leg (leg : GearLeg) (msg : String) : LogEvent :=
  { name := leg.name.toUpper
    msg := msg
    stateName := leg.state.name
    uplock := leg.uplock_sensor
    downlock := leg.downlock_sensor
    transit := leg.in_transit_sensor }

/-- The `LandingGearController` of src/main.py: the configuration and the
owned legs. -/
structure LandingGearController where
  config : Config
  legs : List GearLeg

/-- `LandingGearController.__init__(config)`: three legs named nose, left,
right, in that order, each built from the shared timing configuration
(state and timer take the dataclass defaults `UP_LOCKED` and `0.0`). -/
def mkController (config : Config) : LandingGearController :=
  { config := config
    legs := [
      { name := "nose", deploy_time_s := config.timings.deploy_time_s,
        retract_time_s := config.timings.retract_time_s },
      { name := "left", deploy_time_s := config.timings.deploy_time_s,
        retract_time_s := config.timings.retract_time_s },
      { name := "right", deploy_time_s := config.timings.deploy_time_s,
        retract_time_s := config.timings.retract_time_s }] }

/-- One record of the per-leg results sequence that §6 of the spec says
`command_all` returns: leg name, accepted flag, resulting state and sensor
triple (uplock, downlock, in-transit). -/
structure CommandResult where
  leg_name : String
  accepted : Bool
  resulting_state : GearState
  sensors : Bool × Bool × Bool
deriving DecidableEq, Repr

/-- The loop body of `command_all`: commands each owned leg in order and
collects the updated legs together with the diagnostic event emitted for
each (`log_leg` is called after `leg.command`, so it reports the resulting
state). -/
def commandLegs (direction : String) (allow_from : List String) :
    List GearLeg → List GearLeg × List LogEvent
  | [] => ([], [])
  | leg :: rest =>
    let r := leg.command direction allow_from
    let ev := log_leg r.2
      (if r.1 then direction ++ " command accepted" else direction ++ " command rejected")
    let p := commandLegs direction allow_from rest
    (r.2 :: p.1, ev :: p.2)

/-- The outcome of one `command_all` call: the updated controller, the
diagnostic events emitted (one `logger.info` per leg), and the Python
return value.  The source is annotated `-> None` and returns `None`, so
`ret` is always `none`; its type lets the return value be compared with the
results sequence the spec describes. -/
structure CommandAllOutput where
  controller : LandingGearController
  events : List LogEvent
  ret : Option (List CommandResult)

/-- `LandingGearController.command_all(direction)` of src/main.py: resolves
the allow-list for the direction (`allow_down_from` iff the direction
equals "DOWN", else `allow_up_from`), replaces a falsy value by `[]`
(`allow_from or []`), commands every owned leg in order, logs one event per
leg, and returns `None`. -/
def LandingGearController.command_all (c : LandingGearController) (direction : String) :
    CommandAllOutput :=
  let af :=
    if direction = "DOWN" then c.config.interlocks.allow_down_from
    else c.config.interlocks.allow_up_from
  let allow_from := af.getD []
  let p := commandLegs direction allow_from c.legs
  { controller := { c with legs := p.1 }, events := p.2, ret := none }

/-- Modelled from the spec: the per-leg results sequence that spec §6 says
`command_all` returns — "sequence of \x7bleg_name, accepted: bool,
resulting_state, sensors\x7d (per-leg results, in construction order)" —
one record per owned leg, built from the same per-leg `command` outcome. -/
def commandResultsSpec (direction : String) (allow_from : List String) :
    List GearLeg → List CommandResult
  | [] => []
  | leg :: rest =>
    let r := leg.command direction allow_from
    { leg_name := leg.name
      accepted := r.1
      resulting_state := r.2.state
      sensors := (r.2.uplock_sensor, r.2.downlock_sensor, r.2.in_transit_sensor) }
      :: commandResultsSpec direction allow_from rest

/-- Modelled from the spec: `command_all`'s claimed return value, with the
allow-list resolved from the shared policy exactly as the code resolves
it. -/
def LandingGearController.command_all_results_spec (c : LandingGearController)
    (direction : String) : List CommandResult :=
  let af :=
    if direction = "DOWN" then c.config.interlocks.allow_down_from
    else c.config.interlocks.allow_up_from
  commandResultsSpec direction (af.getD []) c.legs

/-- The diagnostic event that reporting one spec-level `CommandResult`
through `log_leg` produces. -/
def eventOfResult (direction : String) (r : CommandResult) : LogEvent :=
  { name := r.leg_name.toUpper
    msg := if r.accepted then direction ++ " command accepted" else direction ++ " command rejected"
    stateName := r.resulting_state.name
    uplock := r.sensors.1
    downlock := r.sensors.2.1
    transit := r.sensors.2.2 }

/-- Folding `tick` over a list of time increments. -/
def GearLeg.ticks (leg : GearLeg) (dts : List ℚ) : GearLeg :=
  dts.foldl GearLeg.tick leg

/-- The states a leg with durations `d`, `r` can reach from construction
(`GearLeg(name, d, r)`: state `UP_LOCKED`, timer `0`) through any sequence
of `command` and `tick` calls (the spec restricts `dt` to be
non-negative). -/
inductive Reachable (d r : ℚ) : GearLeg → Prop where
  | init (name : String) : Reachable d r ⟨name, d, r, .UP_LOCKED, 0⟩
  | cmd (leg : GearLeg) (direction : String) (allow_from : List String) :
      Reachable d r leg → Reachable d r (leg.command direction allow_from).2
  | tick (leg : GearLeg) (dt : ℚ) : 0 ≤ dt →
      Reachable d r leg → Reachable d r (leg.tick dt)

/-- The intermediate legs of the round-trip scenario: the leg after
`command("DOWN", ["UP_LOCKED"])`, after the first tick sequence, after
`command("UP", ["DOWN_LOCKED"])`, and after the second tick sequence,
together with the two command results. -/
structure RoundTrip where
  ok1 : Bool
  started1 : GearLeg
  deployed : GearLeg
  ok2 : Bool
  started2 : GearLeg
  final : GearLeg

/-- The round-trip scenario of spec §8: `command(DOWN)` under the default
DOWN allow-list, a sequence of ticks, `command(UP)` under the default UP
allow-list, a second sequence of ticks. -/
def roundTrip (leg : GearLeg) (dts1 dts2 : List ℚ) : RoundTrip :=
  let c1 := leg.command "DOWN" ["UP_LOCKED"]
  let l2 := c1.2.ticks dts1
  let c2 := l2.command "UP" ["DOWN_LOCKED"]
  { ok1 := c1.1, started1 := c1.2, deployed := l2,
    ok2 := c2.1, started2 := c2.2, final := c2.2.ticks dts2 }

/-- Exactly one of the three sensors reads true. -/
def sensorsExactlyOne (leg : GearLeg) : Prop :=
  leg.uplock_sensor.toNat + leg.downlock_sensor.toNat + leg.in_transit_sensor.toNat = 1

theorem sensors_exactly_one (leg : GearLeg) : sensorsExactlyOne leg := by
  rcases leg with ⟨n, d, r, s, t⟩
  cases s <;>
    simp [sensorsExactlyOne, GearLeg.uplock_sensor, GearLeg.downlock_sensor,
      GearLeg.in_transit_sensor]

theorem command_name (leg : GearLeg) (direction : String) (allow_from : List String) :
    (leg.command direction allow_from).2.name = leg.name := by
  unfold GearLeg.command
  split_ifs <;> rfl

theorem command_times (leg : GearLeg) (direction : String) (allow_from : List String) :
    (leg.command direction allow_from).2.deploy_time_s = leg.deploy_time_s ∧
      (leg.command direction allow_from).2.retract_time_s = leg.retract_time_s := by
  unfold GearLeg.command
  split_ifs <;> exact ⟨rfl, rfl⟩

theorem tick_times (leg : GearLeg) (dt : ℚ) :
    (leg.tick dt).deploy_time_s = leg.deploy_time_s ∧
      (leg.tick dt).retract_time_s = leg.retract_time_s := by
  unfold GearLeg.tick
  split_ifs <;> exact ⟨rfl, rfl⟩

theorem ticks_times (leg : GearLeg) (dts : List ℚ) :
    (leg.ticks dts).deploy_time_s = leg.deploy_time_s ∧
      (leg.ticks dts).retract_time_s = leg.retract_time_s := by
  induction dts generalizing leg with
  | nil => exact ⟨rfl, rfl⟩
  | cons d rest ih =>
    have h1 := tick_times leg d
    have h2 := ih (leg.tick d)
    exact ⟨by rw [GearLeg.ticks, List.foldl_cons, ← GearLeg.ticks, h2.1, h1.1],
      by rw [GearLeg.ticks, List.foldl_cons, ← GearLeg.ticks, h2.2, h1.2]⟩

/-- Claim C2: for every `GearLeg`, in every state (reachable or not),
exactly one of the three sensors `uplock_sensor`, `downlock_sensor`,
`in_transit_sensor` is true, and this is preserved by every `command` and
every `tick`. -/
theorem claimC2 (leg : GearLeg) (direction : String) (allow_from : List String) (dt : ℚ) :
    sensorsExactlyOne leg ∧ sensorsExactlyOne (leg.command direction allow_from).2 ∧
      sensorsExactlyOne (leg.tick dt) :=
  ⟨sensors_exactly_one leg, sensors_exactly_one _, sensors_exactly_one _⟩

/-- Claim C1 (amended): a command issued to a transitioning leg is rejected
with the leg unchanged whenever the transitioning state's name is not in
`allow_from` — in particular always under the default allow-lists, which
contain only locked-state names; it is not rejected for every `allow_from`
list, since the guard tests only list membership. -/
theorem claimC1 (leg : GearLeg) (direction : String) (allow_from : List String)
    (_ht : leg.in_transit_sensor = true) (hn : leg.state.name ∉ allow_from) :
    leg.command direction allow_from = (false, leg) := by
  simp [GearLeg.command, hn]

/-- Claim C1 counterexample: a leg in `TRANSITIONING_DOWN` commanded with
`allow_from = ["TRANSITIONING_DOWN"]` is accepted (not rejected) and its
state changes to `TRANSITIONING_UP`. -/
theorem claimC1_counterexample :
    (GearLeg.command ⟨"nose", 1, 1, .TRANSITIONING_DOWN, 0⟩ "UP" ["TRANSITIONING_DOWN"]).1
        = true ∧
      (GearLeg.command ⟨"nose", 1, 1, .TRANSITIONING_DOWN, 0⟩ "UP" ["TRANSITIONING_DOWN"]).2.state
        ≠ GearState.TRANSITIONING_DOWN := by
  constructor <;> simp [GearLeg.command, GearState.name]

/-- Claim C1 witness: a transitioning leg with the default DOWN allow-list
is rejected unchanged. -/
theorem claimC1_witness :
    GearLeg.command ⟨"nose", 1, 1, .TRANSITIONING_DOWN, 0⟩ "DOWN" ["UP_LOCKED"]
      = (false, ⟨"nose", 1, 1, .TRANSITIONING_DOWN, 0⟩) :=
  claimC1 ⟨"nose", 1, 1, .TRANSITIONING_DOWN, 0⟩ "DOWN" ["UP_LOCKED"]
    (by simp [GearLeg.in_transit_sensor]) (by simp [GearState.name])

/-- Claim C5: from `UP_LOCKED` with `"UP_LOCKED"` in the allow-list,
`command("DOWN")` is accepted, the state becomes `TRANSITIONING_DOWN`
(not `DOWN_LOCKED`: the command does not complete the transition), and the
timer is reset to 0. -/
theorem claimC5 (leg : GearLeg) (allow_from : List String)
    (hs : leg.state = GearState.UP_LOCKED) (ha : "UP_LOCKED" ∈ allow_from) :
    leg.command "DOWN" allow_from
      = (true, { leg with state := .TRANSITIONING_DOWN, timer_s := 0 }) := by
  simp [GearLeg.command, GearState.name, hs, ha]

/-- Claim C5 witness. -/
theorem claimC5_witness :
    GearLeg.command ⟨"nose", 1, 1, .UP_LOCKED, 0⟩ "DOWN" ["UP_LOCKED"]
      = (true, ⟨"nose", 1, 1, .TRANSITIONING_DOWN, 0⟩) :=
  claimC5 ⟨"nose", 1, 1, .UP_LOCKED, 0⟩ ["UP_LOCKED"] rfl (by simp)

/-- Claim C6: whenever `command` reports rejection, the leg (state and
timer included) is unchanged; in this embedding `command` is a total
function, so no exception is possible and rejection is reported only
through the boolean. -/
theorem claimC6 (leg : GearLeg) (direction : String) (allow_from : List String)
    (h : (leg.command direction allow_from).1 = false) :
    (leg.command direction allow_from).2 = leg := by
  revert h
  unfold GearLeg.command
  split_ifs <;> simp

/-- Claim C6 witness: an interlocked-out DOWN command leaves the leg
unchanged. -/
theorem claimC6_witness :
    (GearLeg.command ⟨"nose", 1, 1, .UP_LOCKED, 0⟩ "DOWN" []).2
      = ⟨"nose", 1, 1, .UP_LOCKED, 0⟩ :=
  claimC6 ⟨"nose", 1, 1, .UP_LOCKED, 0⟩ "DOWN" [] (by simp [GearLeg.command])

/-- Claim C10: the guard checks only allow-list membership, never the
canonical source state: from any state whose name is in `allow_from`, DOWN
is accepted into `TRANSITIONING_DOWN` and UP into `TRANSITIONING_UP`, with
the timer reset. -/
theorem claimC10 (leg : GearLeg) (allow_from : List String)
    (h : leg.state.name ∈ allow_from) :
    leg.command "DOWN" allow_from
        = (true, { leg with state := .TRANSITIONING_DOWN, timer_s := 0 }) ∧
      leg.command "UP" allow_from
        = (true, { leg with state := .TRANSITIONING_UP, timer_s := 0 }) := by
  constructor <;> simp [GearLeg.command, h]

/-- Claim C10 witness: DOWN from `DOWN_LOCKED` is accepted when
`"DOWN_LOCKED"` is in the allow-list. -/
theorem claimC10_witness :
    GearLeg.command ⟨"nose", 1, 1, .DOWN_LOCKED, 0⟩ "DOWN" ["DOWN_LOCKED"]
        = (true, ⟨"nose", 1, 1, .TRANSITIONING_DOWN, 0⟩) ∧
      GearLeg.command ⟨"nose", 1, 1, .DOWN_LOCKED, 0⟩ "UP" ["DOWN_LOCKED"]
        = (true, ⟨"nose", 1, 1, .TRANSITIONING_UP, 0⟩) :=
  claimC10 ⟨"nose", 1, 1, .DOWN_LOCKED, 0⟩ ["DOWN_LOCKED"] (by simp [GearState.name])

/-- Claim C4: once the accumulated timer reaches the relevant duration, a
single `tick` call completes the transition: from `TRANSITIONING_DOWN` with
`timer_s + dt ≥ deploy_time_s` the state becomes `DOWN_LOCKED`, and from
`TRANSITIONING_UP` with `timer_s + dt ≥ retract_time_s` it becomes
`UP_LOCKED`, in that same call. -/
theorem claimC4 (leg : GearLeg) (dt : ℚ) (_hdt : 0 ≤ dt) :
    (leg.state = GearState.TRANSITIONING_DOWN → leg.deploy_time_s ≤ leg.timer_s + dt →
        (leg.tick dt).state = GearState.DOWN_LOCKED) ∧
      (leg.state = GearState.TRANSITIONING_UP → leg.retract_time_s ≤ leg.timer_s + dt →
        (leg.tick dt).state = GearState.UP_LOCKED) := by
  constructor <;> intro hs hth <;> simp [GearLeg.tick, hs, hth]

/-- Claim C4 witness: deploy completes in one tick once the threshold is
met, and so does retract. -/
theorem claimC4_witness :
    ((⟨"nose", 1, 1, .TRANSITIONING_DOWN, 0⟩ : GearLeg).tick 1).state
        = GearState.DOWN_LOCKED ∧
      ((⟨"nose", 1, 1, .TRANSITIONING_UP, 0⟩ : GearLeg).tick 2).state
        = GearState.UP_LOCKED :=
  ⟨(claimC4 ⟨"nose", 1, 1, .TRANSITIONING_DOWN, 0⟩ 1 (by norm_num)).1 rfl (by norm_num),
    (claimC4 ⟨"nose", 1, 1, .TRANSITIONING_UP, 0⟩ 2 (by norm_num)).2 rfl (by norm_num)⟩

/-- Invariant of every reachable leg with positive durations: the
configured durations are untouched, and while transitioning the timer is
strictly below the relevant duration (completion fires as soon as it is
reached, within the very `tick` that reached it). -/
theorem reachable_inv (d r : ℚ) (leg : GearLeg) (hd : 0 < d) (hr : 0 < r)
    (h : Reachable d r leg) :
    leg.deploy_time_s = d ∧ leg.retract_time_s = r ∧
      (leg.state = GearState.TRANSITIONING_DOWN → leg.timer_s < d) ∧
      (leg.state = GearState.TRANSITIONING_UP → leg.timer_s < r) := by
  induction h with
  | init name => exact ⟨rfl, rfl, by simp, by simp⟩
  | cmd leg direction allow_from _ ih =>
    obtain ⟨ihd, ihr, _, _⟩ := ih
    unfold GearLeg.command
    split_ifs <;> simp_all
  | tick leg dt _ _ ih =>
    obtain ⟨ihd, ihr, ihtd, ihtu⟩ := ih
    rcases leg with ⟨n, dd, rr, s, t⟩
    cases s <;> simp_all [GearLeg.tick] <;> split_ifs with h <;> simp_all

/-- In every reachable leg with positive durations, `tick(0)` leaves the
leg unchanged entirely. -/
theorem tick_zero_eq (d r : ℚ) (leg : GearLeg) (hd : 0 < d) (hr : 0 < r)
    (h : Reachable d r leg) : leg.tick 0 = leg := by
  obtain ⟨ihd, ihr, ihtd, ihtu⟩ := reachable_inv d r leg hd hr h
  rcases leg with ⟨n, dd, rr, s, t⟩
  cases s <;> simp_all [GearLeg.tick]

/-- Claim C7: for every reachable leg with positive deploy and retract
durations, `tick(0)` changes neither the state nor any of the three
sensors. -/
theorem claimC7 (d r : ℚ) (leg : GearLeg) (hd : 0 < d) (hr : 0 < r)
    (h : Reachable d r leg) :
    (leg.tick 0).state = leg.state ∧
      (leg.tick 0).uplock_sensor = leg.uplock_sensor ∧
      (leg.tick 0).downlock_sensor = leg.downlock_sensor ∧
      (leg.tick 0).in_transit_sensor = leg.in_transit_sensor := by
  rw [tick_zero_eq d r leg hd hr h]
  exact ⟨rfl, rfl, rfl, rfl⟩

/-- Claim C7 witness: the freshly constructed nose leg, one accepted DOWN
command later (a reachable transitioning state), is untouched by
`tick(0)`. -/
theorem claimC7_witness :
    ((GearLeg.command ⟨"nose", 1, 1, .UP_LOCKED, 0⟩ "DOWN" ["UP_LOCKED"]).2.tick 0).state
        = (GearLeg.command ⟨"nose", 1, 1, .UP_LOCKED, 0⟩ "DOWN" ["UP_LOCKED"]).2.state ∧
      ((GearLeg.command ⟨"nose", 1, 1, .UP_LOCKED, 0⟩ "DOWN" ["UP_LOCKED"]).2.tick 0).uplock_sensor
        = (GearLeg.command ⟨"nose", 1, 1, .UP_LOCKED, 0⟩ "DOWN" ["UP_LOCKED"]).2.uplock_sensor ∧
      ((GearLeg.command ⟨"nose", 1, 1, .UP_LOCKED, 0⟩ "DOWN" ["UP_LOCKED"]).2.tick 0).downlock_sensor
        = (GearLeg.command ⟨"nose", 1, 1, .UP_LOCKED, 0⟩ "DOWN" ["UP_LOCKED"]).2.downlock_sensor ∧
      ((GearLeg.command ⟨"nose", 1, 1, .UP_LOCKED, 0⟩ "DOWN" ["UP_LOCKED"]).2.tick 0).in_transit_sensor
        = (GearLeg.command ⟨"nose", 1, 1, .UP_LOCKED, 0⟩ "DOWN" ["UP_LOCKED"]).2.in_transit_sensor :=
  claimC7 1 1 _ (by norm_num) (by norm_num)
    (Reachable.cmd _ "DOWN" ["UP_LOCKED"] (Reachable.init "nose"))

/-- `tick` is a no-op in a locked state. -/
theorem tick_locked (leg : GearLeg) (dt : ℚ)
    (h : leg.state = GearState.DOWN_LOCKED ∨ leg.state = GearState.UP_LOCKED) :
    leg.tick dt = leg := by
  rcases h with h | h <;> simp [GearLeg.tick, h]

/-- Folded ticks are a no-op in a locked state. -/
theorem ticks_locked (dts : List ℚ) (leg : GearLeg)
    (h : leg.state = GearState.DOWN_LOCKED ∨ leg.state = GearState.UP_LOCKED) :
    leg.ticks dts = leg := by
  induction dts with
  | nil => rfl
  | cons d rest ih =>
    show (leg.tick d).ticks rest = leg
    rw [tick_locked leg d h]
    exact ih

/-- Ticks whose increments accumulate past `deploy_time_s` complete a DOWN
transition (the timer starts below the duration, as it always does in a
reachable transitioning state). -/
theorem ticks_complete_down (dts : List ℚ) (leg : GearLeg)
    (hs : leg.state = GearState.TRANSITIONING_DOWN)
    (hlt : leg.timer_s < leg.deploy_time_s)
    (hsum : leg.deploy_time_s ≤ leg.timer_s + dts.sum) :
    (leg.ticks dts).state = GearState.DOWN_LOCKED := by
  induction dts generalizing leg with
  | nil => simp at hsum; linarith
  | cons d rest ih =>
    show ((leg.tick d).ticks rest).state = _
    by_cases hth : leg.deploy_time_s ≤ leg.timer_s + d
    · have hlock : (leg.tick d).state = GearState.DOWN_LOCKED := by
        simp [GearLeg.tick, hs, hth]
      rw [ticks_locked rest _ (Or.inl hlock)]
      exact hlock
    · have hstep : leg.tick d = { leg with timer_s := leg.timer_s + d } := by
        simp [GearLeg.tick, hs, hth]
      apply ih
      · rw [hstep]; exact hs
      · rw [hstep]; simpa using lt_of_not_le hth
      · rw [hstep]
        show leg.deploy_time_s ≤ leg.timer_s + d + rest.sum
        have := List.sum_cons (a := d) (l := rest)
        rw [this] at hsum
        linarith

/-- Ticks whose increments accumulate past `retract_time_s` complete an UP
transition. -/
theorem ticks_complete_up (dts : List ℚ) (leg : GearLeg)
    (hs : leg.state = GearState.TRANSITIONING_UP)
    (hlt : leg.timer_s < leg.retract_time_s)
    (hsum : leg.retract_time_s ≤ leg.timer_s + dts.sum) :
    (leg.ticks dts).state = GearState.UP_LOCKED := by
  induction dts generalizing leg with
  | nil => simp at hsum; linarith
  | cons d rest ih =>
    show ((leg.tick d).ticks rest).state = _
    by_cases hth : leg.retract_time_s ≤ leg.timer_s + d
    · have hlock : (leg.tick d).state = GearState.UP_LOCKED := by
        simp [GearLeg.tick, hs, hth]
      rw [ticks_locked rest _ (Or.inr hlock)]
      exact hlock
    · have hstep : leg.tick d = { leg with timer_s := leg.timer_s + d } := by
        simp [GearLeg.tick, hs, hth]
      apply ih
      · rw [hstep]; exact hs
      · rw [hstep]; simpa using lt_of_not_le hth
      · rw [hstep]
        show leg.retract_time_s ≤ leg.timer_s + d + rest.sum
        have := List.sum_cons (a := d) (l := rest)
        rw [this] at hsum
        linarith

/-- From `DOWN_LOCKED` under the default UP allow-list, `command("UP")` is
accepted into `TRANSITIONING_UP` with the timer reset. -/
theorem command_from_down (l2 : GearLeg) (h : l2.state = GearState.DOWN_LOCKED) :
    l2.command "UP" ["DOWN_LOCKED"]
      = (true, { l2 with state := .TRANSITIONING_UP, timer_s := 0 }) := by
  simp [GearLeg.command, GearState.name, h]

/-- Claim C8: starting from `UP_LOCKED` with positive durations and the
default allow-lists, `command(DOWN)`, ticks accumulating at least
`deploy_time_s`, `command(UP)`, then ticks accumulating at least
`retract_time_s` return the leg to `UP_LOCKED`; both commands are accepted
and each resets the timer to 0 at the start of its transition. -/
theorem claimC8 (leg : GearLeg) (dts1 dts2 : List ℚ)
    (hs : leg.state = GearState.UP_LOCKED)
    (hd : 0 < leg.deploy_time_s) (hr : 0 < leg.retract_time_s)
    (_h1 : ∀ x ∈ dts1, 0 ≤ x) (hsum1 : leg.deploy_time_s ≤ dts1.sum)
    (_h2 : ∀ x ∈ dts2, 0 ≤ x) (hsum2 : leg.retract_time_s ≤ dts2.sum) :
    (roundTrip leg dts1 dts2).ok1 = true ∧
      (roundTrip leg dts1 dts2).started1.timer_s = 0 ∧
      (roundTrip leg dts1 dts2).deployed.state = GearState.DOWN_LOCKED ∧
      (roundTrip leg dts1 dts2).ok2 = true ∧
      (roundTrip leg dts1 dts2).started2.timer_s = 0 ∧
      (roundTrip leg dts1 dts2).final.state = GearState.UP_LOCKED := by
  have hok1 : (leg.command "DOWN" ["UP_LOCKED"]).1 = true := by
    simp [GearLeg.command, GearState.name, hs]
  have hl1s : (leg.command "DOWN" ["UP_LOCKED"]).2.state = GearState.TRANSITIONING_DOWN := by
    simp [GearLeg.command, GearState.name, hs]
  have hl1t : (leg.command "DOWN" ["UP_LOCKED"]).2.timer_s = 0 := by
    simp [GearLeg.command, GearState.name, hs]
  have hl1d : (leg.command "DOWN" ["UP_LOCKED"]).2.deploy_time_s = leg.deploy_time_s :=
    (command_times leg "DOWN" ["UP_LOCKED"]).1
  have hl1r : (leg.command "DOWN" ["UP_LOCKED"]).2.retract_time_s = leg.retract_time_s :=
    (command_times leg "DOWN" ["UP_LOCKED"]).2
  have hl2s : ((leg.command "DOWN" ["UP_LOCKED"]).2.ticks dts1).state
      = GearState.DOWN_LOCKED := by
    apply ticks_complete_down dts1 _ hl1s
    · rw [hl1t, hl1d]; exact hd
    · rw [hl1t, hl1d]; simpa using hsum1
  have hl2r : ((leg.command "DOWN" ["UP_LOCKED"]).2.ticks dts1).retract_time_s
      = leg.retract_time_s :=
    ((ticks_times _ dts1).2).trans hl1r
  have hc2 := command_from_down _ hl2s
  have hok2 : (((leg.command "DOWN" ["UP_LOCKED"]).2.ticks dts1).command
      "UP" ["DOWN_LOCKED"]).1 = true := by rw [hc2]
  have hl3s : (((leg.command "DOWN" ["UP_LOCKED"]).2.ticks dts1).command
      "UP" ["DOWN_LOCKED"]).2.state = GearState.TRANSITIONING_UP := by rw [hc2]
  have hl3t : (((leg.command "DOWN" ["UP_LOCKED"]).2.ticks dts1).command
      "UP" ["DOWN_LOCKED"]).2.timer_s = 0 := by rw [hc2]
  have hl3r : (((leg.command "DOWN" ["UP_LOCKED"]).2.ticks dts1).command
      "UP" ["DOWN_LOCKED"]).2.retract_time_s = leg.retract_time_s :=
    ((command_times _ "UP" ["DOWN_LOCKED"]).2).trans hl2r
  have hfin : ((((leg.command "DOWN" ["UP_LOCKED"]).2.ticks dts1).command
      "UP" ["DOWN_LOCKED"]).2.ticks dts2).state = GearState.UP_LOCKED := by
    apply ticks_complete_up dts2 _ hl3s
    · rw [hl3t, hl3r]; exact hr
    · rw [hl3t, hl3r]; simpa using hsum2
  exact ⟨hok1, hl1t, hl2s, hok2, hl3t, hfin⟩

/-- Claim C8 witness: a leg with durations 1 and 1 goes down with one tick
of 1 and back up with two ticks of one half. -/
theorem claimC8_witness :
    (roundTrip ⟨"nose", 1, 1, .UP_LOCKED, 0⟩ [1] [1/2, 1/2]).ok1 = true ∧
      (roundTrip ⟨"nose", 1, 1, .UP_LOCKED, 0⟩ [1] [1/2, 1/2]).started1.timer_s = 0 ∧
      (roundTrip ⟨"nose", 1, 1, .UP_LOCKED, 0⟩ [1] [1/2, 1/2]).deployed.state
        = GearState.DOWN_LOCKED ∧
      (roundTrip ⟨"nose", 1, 1, .UP_LOCKED, 0⟩ [1] [1/2, 1/2]).ok2 = true ∧
      (roundTrip ⟨"nose", 1, 1, .UP_LOCKED, 0⟩ [1] [1/2, 1/2]).started2.timer_s = 0 ∧
      (roundTrip ⟨"nose", 1, 1, .UP_LOCKED, 0⟩ [1] [1/2, 1/2]).final.state
        = GearState.UP_LOCKED :=
  claimC8 ⟨"nose", 1, 1, .UP_LOCKED, 0⟩ [1] [1/2, 1/2] rfl (by norm_num) (by norm_num)
    (by norm_num) (by norm_num) (by norm_num) (by norm_num)

/-- The events emitted by the `command_all` loop are exactly the spec-level
per-leg results reported through `log_leg`, one per leg, in order. -/
theorem commandLegs_events (direction : String) (allow_from : List String)
    (legs : List GearLeg) :
    (commandLegs direction allow_from legs).2
      = (commandResultsSpec direction allow_from legs).map (eventOfResult direction) := by
  induction legs with
  | nil => rfl
  | cons leg rest ih =>
    simp only [commandLegs, commandResultsSpec, List.map_cons, ih, List.cons.injEq, and_true]
    simp [log_leg, eventOfResult, command_name leg direction allow_from]

/-- The spec-level results sequence has one entry per owned leg. -/
theorem commandResultsSpec_length (direction : String) (allow_from : List String)
    (legs : List GearLeg) :
    (commandResultsSpec direction allow_from legs).length = legs.length := by
  induction legs with
  | nil => rfl
  | cons leg rest ih => simp [commandResultsSpec, ih]

/-- Claim C3 (amended): `command_all(direction)` returns no value (the
Python function returns `None`); the per-leg results the spec describes are
instead emitted as diagnostic log events — one per owned leg, in
construction order (nose, left, right for a freshly constructed
controller), each carrying the leg name, whether the command was accepted
or rejected, the resulting state name and the sensor triple. -/
theorem claimC3 (c : LandingGearController) (cfg : Config) (direction : String) :
    (c.command_all direction).ret = none ∧
      (c.command_all direction).events
        = (c.command_all_results_spec direction).map (eventOfResult direction) ∧
      (c.command_all_results_spec direction).length = c.legs.length ∧
      (mkController cfg).legs.map GearLeg.name = ["nose", "left", "right"] := by
  refine ⟨rfl, ?_, ?_, rfl⟩
  · simp only [LandingGearController.command_all, LandingGearController.command_all_results_spec]
    exact commandLegs_events direction _ c.legs
  · simp only [LandingGearController.command_all_results_spec]
    exact commandResultsSpec_length direction _ c.legs

/-- Claim C3 counterexample: on the default configuration, `command_all`
does not return the spec's per-leg results sequence — it returns `None`. -/
theorem claimC3_counterexample :
    ((mkController {}).command_all "DOWN").ret
      ≠ some ((mkController {}).command_all_results_spec "DOWN") := by
  intro h
  exact Option.noConfusion h

/-- If no field value makes `float()` raise the uncaught `OverflowError`,
the `timing_field` conversion succeeds with some value. -/
theorem timing_field_ok (o : List (String × Json)) (key : String)
    (h : ∀ v, jsonGet o key = some v → pyFloat v ≠ FloatConv.overflow) :
    ∃ q : ℚ, timing_field o key = pure q := by
  unfold timing_field
  rcases hv : jsonGet o key with _ | v
  · exact ⟨2.5, rfl⟩
  · rcases hc : pyFloat v with q | _ | _ | _
    · exact ⟨q, by simp only [hc]⟩
    · exact ⟨2.5, by simp only [hc]⟩
    · exact ⟨untrackedFloat, by simp only [hc]⟩
    · exact absurd hc (h v hv)

/-- A missing field, or one whose conversion raises the caught
`TypeError`/`ValueError`, falls back to the default 2.5. -/
theorem timing_field_default (o : List (String × Json)) (key : String)
    (h : ∀ v, jsonGet o key = some v → pyFloat v = FloatConv.caught) :
    timing_field o key = pure 2.5 := by
  unfold timing_field
  rcases hv : jsonGet o key with _ | v
  · rfl
  · simp only [h v hv]

/-- Claim C9 (amended): for every configuration input whose top level is a
JSON object, whose `timings`, `interlocks` and `logging` sections, when
present, are JSON objects, and whose `deploy_time_s`/`retract_time_s`
values do not make Python's `float()` raise `OverflowError` (a JSON
integer at or beyond the float range does, and `load_config` does not
catch it), `load_config` returns a `Config` without failing, and every
malformed or missing scalar or list field falls back to its stated
default: a field whose conversion raises the caught
`TypeError`/`ValueError`, or a missing field, becomes 2.5, and a missing
or non-list allow-list becomes `["UP_LOCKED"]`/`["DOWN_LOCKED"]`. -/
theorem claimC9 (fs tfs ifs lfs : List (String × Json))
    (ht : (jsonGet fs "timings").getD (Json.obj []) = Json.obj tfs)
    (hi : (jsonGet fs "interlocks").getD (Json.obj []) = Json.obj ifs)
    (hl : (jsonGet fs "logging").getD (Json.obj []) = Json.obj lfs)
    (hod : ∀ v, jsonGet tfs "deploy_time_s" = some v → pyFloat v ≠ FloatConv.overflow)
    (hor : ∀ v, jsonGet tfs "retract_time_s" = some v → pyFloat v ≠ FloatConv.overflow) :
    ∃ cfg : Config, load_config (Json.obj fs) = Except.ok cfg ∧
      ((∀ v, jsonGet tfs "deploy_time_s" = some v → pyFloat v = FloatConv.caught) →
        cfg.timings.deploy_time_s = 2.5) ∧
      ((∀ v, jsonGet tfs "retract_time_s" = some v → pyFloat v = FloatConv.caught) →
        cfg.timings.retract_time_s = 2.5) ∧
      ((∀ v, jsonGet ifs "allow_down_from" = some v → ∀ l, v ≠ Json.arr l) →
        cfg.interlocks.allow_down_from = some ["UP_LOCKED"]) ∧
      ((∀ v, jsonGet ifs "allow_up_from" = some v → ∀ l, v ≠ Json.arr l) →
        cfg.interlocks.allow_up_from = some ["DOWN_LOCKED"]) := by
  obtain ⟨dq, hdq⟩ := timing_field_ok tfs "deploy_time_s" hod
  obtain ⟨rq, hrq⟩ := timing_field_ok tfs "retract_time_s" hor
  refine ⟨{
    timings := { deploy_time_s := dq, retract_time_s := rq }
    interlocks := {
      allow_down_from := some (match jsonGet ifs "allow_down_from" with
        | none => ["UP_LOCKED"]
        | some (.arr l) => l.filterMap (fun v => match v with | .str s => some s | _ => none)
        | some _ => ["UP_LOCKED"])
      allow_up_from := some (match jsonGet ifs "allow_up_from" with
        | none => ["DOWN_LOCKED"]
        | some (.arr l) => l.filterMap (fun v => match v with | .str s => some s | _ => none)
        | some _ => ["DOWN_LOCKED"]) }
    logging := { level := (jsonGet lfs "level").getD (.str "INFO") } }, ?_, ?_, ?_, ?_, ?_⟩
  · simp only [load_config, pure_bind]
    rw [ht]
    simp only [pure_bind]
    rw [hdq]
    simp only [pure_bind]
    rw [hrq]
    simp only [pure_bind]
    rw [hi]
    simp only [pure_bind]
    rw [hl]
    simp only [pure_bind]
    rfl
  · intro hcond
    have h25 := hdq.symm.trans (timing_field_default tfs "deploy_time_s" hcond)
    exact Except.ok.inj h25
  · intro hcond
    have h25 := hrq.symm.trans (timing_field_default tfs "retract_time_s" hcond)
    exact Except.ok.inj h25
  · intro hcond
    rcases hv : jsonGet ifs "allow_down_from" with _ | v
    · simp [hv]
    · cases v <;> simp [hv]
      case arr items => exact absurd rfl (hcond _ hv items)
  · intro hcond
    rcases hv : jsonGet ifs "allow_up_from" with _ | v
    · simp [hv]
    · cases v <;> simp [hv]
      case arr items => exact absurd rfl (hcond _ hv items)

/-- Claim C9 witness: a configuration whose `timings` section carries a
malformed (`null`) `deploy_time_s` and omits everything else loads without
failing, with every field defaulted. -/
theorem claimC9_witness :
    ∃ cfg : Config,
      load_config (Json.obj [("timings", Json.obj [("deploy_time_s", Json.null)])])
          = Except.ok cfg ∧
        ((∀ v, jsonGet [("deploy_time_s", Json.null)] "deploy_time_s" = some v →
            pyFloat v = FloatConv.caught) → cfg.timings.deploy_time_s = 2.5) ∧
        ((∀ v, jsonGet [("deploy_time_s", Json.null)] "retract_time_s" = some v →
            pyFloat v = FloatConv.caught) → cfg.timings.retract_time_s = 2.5) ∧
        ((∀ v, jsonGet ([] : List (String × Json)) "allow_down_from" = some v →
            ∀ l, v ≠ Json.arr l) → cfg.interlocks.allow_down_from = some ["UP_LOCKED"]) ∧
        ((∀ v, jsonGet ([] : List (String × Json)) "allow_up_from" = some v →
            ∀ l, v ≠ Json.arr l) → cfg.interlocks.allow_up_from = some ["DOWN_LOCKED"]) :=
  claimC9 [("timings", Json.obj [("deploy_time_s", Json.null)])]
    [("deploy_time_s", Json.null)] [] [] rfl rfl rfl
    (by intro v hv; injection hv with h; subst h; simp [pyFloat])
    (by intro v hv; exact Option.noConfusion hv)

/-- Claim C9 counterexample: a configuration whose `timings` field is the
integer 3 (not an object) makes `load_config` raise `AttributeError`
(`timings_raw.get` on a non-dict), so `load_config` does not return a
`Config` for every input. -/
theorem claimC9_counterexample :
    load_config (Json.obj [("timings", Json.int 3)]) = Except.error "AttributeError" := by
  rfl

set_option maxRecDepth 4000 in
/-- The uncaught `OverflowError` path is real: a `deploy_time_s` that is a
JSON integer beyond the float range (here `10 ^ 309`) makes `load_config`
raise instead of falling back. -/
theorem load_config_int_overflow :
    load_config (Json.obj [("timings", Json.obj [("deploy_time_s", Json.int (10 ^ 309))])])
      = Except.error "OverflowError" := by
  rfl
